import Mathlib

/- Verification development for the nlp-sql-interface backend.
   Shallow embedding of backend/services/query_service.py,
   backend/services/schema_service.py and the /query guard of backend/main.py.
   Strings are modelled as lists of characters; regular-expression based
   source code is translated into explicit, executable scanning functions
   whose semantics follow Python's `re` behaviour on the patterns used. -/

namespace NlpSql

abbrev Str := List Char

def strOf (s : String) : Str := s.toList

def lowerS (s : Str) : Str := s.map Char.toLower

def upperS (s : Str) : Str := s.map Char.toUpper

/-- Python regex `\s` / `str.strip()` whitespace class (ASCII part). -/
def isPyWS (c : Char) : Bool :=
  c = ' ' || c = Char.ofNat 9 || c = Char.ofNat 10 || c = Char.ofNat 13 ||
  c = Char.ofNat 12 || c = Char.ofNat 11

/-- Python `str.strip()`. -/
def stripS (s : Str) : Str := ((s.dropWhile isPyWS).reverse.dropWhile isPyWS).reverse

/-- Python `str.rstrip(c)` for a single character set element. -/
def rstripChar (c : Char) (s : Str) : Str := (s.reverse.dropWhile (· = c)).reverse

/-- Earliest suffix of the string satisfying `p` (leftmost regex match position). -/
def firstSufP (p : Str → Bool) : Str → Option Str
  | [] => if p [] then some [] else none
  | c :: rest => if p (c :: rest) then some (c :: rest) else firstSufP p rest

/-- Python `needle in hay` (substring containment). -/
def containsSub (needle hay : Str) : Bool :=
  (firstSufP (fun u => needle.isPrefixOf u) hay).isSome

/-- Case-insensitive substring containment. -/
def containsCI (needle hay : Str) : Bool := containsSub (lowerS needle) (lowerS hay)

/-- Python regex `\w` (ASCII part), used for the `\b` boundaries in alias mapping. -/
def isWordChar (c : Char) : Bool := c.isAlphanum || c = '_'

/- ---------------- Alias Mapping (query_service.py) ---------------- -/

/-- ALIASES dict of query_service.py, in source (insertion) order. -/
def ALIASES : List (Str × Str) :=
  [ (strOf "footballers", strOf "players"),
    (strOf "soccer players", strOf "players"),
    (strOf "fifa players", strOf "players"),
    (strOf "overall", strOf "ovr"),
    (strOf "overall rating", strOf "ovr"),
    (strOf "rating", strOf "ovr"),
    (strOf "pace", strOf "pac"),
    (strOf "shooting", strOf "sho"),
    (strOf "passing", strOf "pas"),
    (strOf "dribbling", strOf "dri"),
    (strOf "physical", strOf "phy"),
    (strOf "position name", strOf "position"),
    (strOf "team name", strOf "team"),
    (strOf "club", strOf "team"),
    (strOf "nationality", strOf "nation"),
    (strOf "country", strOf "nation"),
    (strOf "league name", strOf "league") ]

/-- One pass of `re.sub(rf"\b{alias}\b", actual, text, flags=IGNORECASE)`.
    All alias phrases start and end with a letter, so the `\b` boundaries amount
    to: the character before the match (in the original text) is absent or a
    non-word character, and likewise for the character after the match.
    `prev` is the original-text character preceding the current position.
    `fuel` bounds recursion; it is initialized to the text length and each step
    consumes at least one input character. -/
def subAliasAux (al repl : Str) : Nat → Option Char → Str → Str
  | 0, _, s => s
  | _, _, [] => []
  | fuel + 1, prev, c :: rest =>
    let s := c :: rest
    let okBefore := match prev with
      | none => true
      | some p => !isWordChar p
    let okHere := (lowerS al).isPrefixOf (lowerS s)
    let okAfter := match s.drop al.length with
      | [] => true
      | d :: _ => !isWordChar d
    if okHere && okBefore && okAfter && al.length ≠ 0 then
      repl ++ subAliasAux al repl fuel (some (al.getLastD ' ')) (s.drop al.length)
    else
      c :: subAliasAux al repl fuel (some c) rest

def subAliasWordCI (al repl text : Str) : Str := subAliasAux al repl text.length none text

/-- apply_alias_mapping of query_service.py. -/
def apply_alias_mapping (text : Str) : Str :=
  ALIASES.foldl (fun acc p => subAliasWordCI p.1 p.2 acc) text

example : apply_alias_mapping (strOf "best footballers by rating") =
    strOf "best players by ovr" := by decide

example : apply_alias_mapping (strOf "CREATE TABLE players") =
    strOf "CREATE TABLE players" := by decide

/- ---------------- clean_sql_query (query_service.py) ----------------
   The source performs four `re.sub` passes and then searches two patterns.
   Each pass is embedded as an explicit scanner with the same semantics. -/

/-- re.sub of the fenced-block opener pattern (backticks-sql + `\s*`),
    IGNORECASE: delete each occurrence together with the following maximal
    whitespace run, scanning left to right past each replacement. -/
def subMdOpen : Nat → Str → Str
  | 0, s => s
  | _, [] => []
  | fuel + 1, c :: rest =>
    let s := c :: rest
    if (strOf "```sql").isPrefixOf (lowerS s) then
      subMdOpen fuel ((s.drop 6).dropWhile isPyWS)
    else
      c :: subMdOpen fuel rest

/-- Largest index of a newline character in `run` (for the greedy `\s*`
    followed by a MULTILINE `$` inside a whitespace run). -/
def lastNewlineIdx (run : Str) : Option Nat :=
  match run.reverse.findIdx? (· = Char.ofNat 10) with
  | some j => some (run.length - 1 - j)
  | none => none

/-- re.sub of the fenced-block closer pattern (backticks + `\s*$`), MULTILINE:
    at each position where three backticks occur, greedily take the largest
    whitespace extension after which the position is end-of-string or a
    newline; if one exists, delete the match, else keep scanning. -/
def subMdClose : Nat → Str → Str
  | 0, s => s
  | _, [] => []
  | fuel + 1, c :: rest =>
    let s := c :: rest
    if (strOf "```").isPrefixOf s then
      let after := s.drop 3
      let run := after.takeWhile isPyWS
      let tail := after.drop run.length
      let k? : Option Nat :=
        if tail = [] then some run.length else lastNewlineIdx run
      match k? with
      | some k => subMdClose fuel (after.drop k)
      | none => c :: subMdClose fuel rest
    else
      c :: subMdClose fuel rest

/-- re.sub deleting every bare triple-backtick occurrence. -/
def subTicks : Nat → Str → Str
  | 0, s => s
  | _, [] => []
  | fuel + 1, c :: rest =>
    let s := c :: rest
    if (strOf "```").isPrefixOf s then subTicks fuel (s.drop 3)
    else c :: subTicks fuel rest

/-- re.sub of `^SQLQuery:\s*` with IGNORECASE and MULTILINE: at each line
    start, delete the label and the following maximal whitespace run (which
    may span newlines); the line-start flag after a deletion is determined by
    the last original character consumed. -/
def subSqlLabel : Nat → Bool → Str → Str
  | 0, _, s => s
  | _, _, [] => []
  | fuel + 1, atLineStart, c :: rest =>
    let s := c :: rest
    if atLineStart && (strOf "sqlquery:").isPrefixOf (lowerS s) then
      let afterLabel := s.drop 9
      let run := afterLabel.takeWhile isPyWS
      let nextStart := match run.getLast? with
        | some ch => ch = Char.ofNat 10
        | none => false
      subSqlLabel fuel nextStart (afterLabel.drop run.length)
    else
      c :: subSqlLabel fuel (c = Char.ofNat 10) rest

/-- Non-MULTILINE `\s*$` at a position: the remaining suffix is all whitespace
    (then `$` holds at the end of the string). -/
def allWS (s : Str) : Bool := s.all isPyWS

/-- Stop condition for the lazy tail of pattern 1, `(?:;|\s*$)`:
    the suffix starts with a semicolon or is all whitespace. -/
def p1Stop (u : Str) : Bool :=
  (match u with
   | ch :: _ => ch = ';'
   | [] => true) || allWS u

/-- Attempt pattern 1 `(SELECT\s+.*?FROM\s+.*?)(?:;|\s*$)` (IGNORECASE,
    DOTALL) at a suffix beginning with the keyword: greedy whitespace after
    SELECT, earliest FROM followed by whitespace, then the lazy group stops at
    the earliest `p1Stop` position. Returns the captured group. -/
def p1AtSelect (s0 : Str) : Option Str :=
  let a := s0.drop 6
  match a with
  | [] => none
  | ch :: _ =>
    if !isPyWS ch then none
    else
      let b := a.dropWhile isPyWS
      match firstSufP (fun u =>
          (strOf "from").isPrefixOf (lowerS u) &&
          (match u.drop 4 with
           | d :: _ => isPyWS d
           | [] => false)) b with
      | none => none
      | some u =>
        let f := (u.drop 4).dropWhile isPyWS
        match firstSufP p1Stop f with
        | none => none
        | some v => some (s0.take (s0.length - v.length))

/-- Leftmost match of pattern 1 over the whole text. -/
def p1Search (t : Str) : Option Str :=
  match firstSufP (fun s0 =>
      (strOf "select").isPrefixOf (lowerS s0) && (p1AtSelect s0).isSome) t with
  | none => none
  | some s0 => p1AtSelect s0

/-- Consume an optional clause keyword sequence (each word followed by a
    greedy whitespace run); returns the rest if every word matched. -/
def eatWords : List Str → Str → Option Str
  | [], s => some s
  | w :: ws, s =>
    if (lowerS w).isPrefixOf (lowerS s) then
      let a := s.drop w.length
      match a with
      | [] => none
      | ch :: _ =>
        if isPyWS ch then eatWords ws (a.dropWhile isPyWS) else none
    else none

/-- Attempt pattern 2 of clean_sql_query at a suffix beginning with SELECT.
    Pattern 2 (the comprehensive SELECT pattern with optional DISTINCT ON,
    WHERE, GROUP BY, ORDER BY, LIMIT parts and a lazy core) matches only if
    pattern 1 matches, because its mandatory core is the same
    `SELECT\s+ ... FROM\s+` skeleton and its tail is entirely optional;
    clean_sql_query consults it only after pattern 1 failed, so this branch
    is unreachable.  The group follows the engine's deterministic choice:
    greedy whitespace, optional DISTINCT ON list, lazy run to the earliest
    FROM followed by whitespace, greedy whitespace, then each optional
    trailing clause tried in order at the current position. -/
def p2AtSelect (s0 : Str) : Option Str :=
  let a := s0.drop 6
  match a with
  | [] => none
  | ch :: _ =>
    if !isPyWS ch then none
    else
      let b := a.dropWhile isPyWS
      let b1 :=
        match eatWords [strOf "distinct", strOf "on"] b with
        | some c =>
          match c with
          | '(' :: d =>
            let inner := d.takeWhile (· ≠ ')')
            let after := d.drop inner.length
            if inner ≠ [] then
              match after with
              | ')' :: e =>
                match e with
                | e0 :: _ => if isPyWS e0 then e.dropWhile isPyWS else b
                | [] => b
              | _ => b
            else b
          | _ => b
        | none => b
      match firstSufP (fun u =>
          (strOf "from").isPrefixOf (lowerS u) &&
          (match u.drop 4 with
           | d :: _ => isPyWS d
           | [] => false)) b1 with
      | none => none
      | some u =>
        let f := (u.drop 4).dropWhile isPyWS
        let f1 := match eatWords [strOf "where"] f with
          | some g => g
          | none => f
        let f2 := match eatWords [strOf "group", strOf "by"] f1 with
          | some g => g
          | none => f1
        let f3 := match eatWords [strOf "order", strOf "by"] f2 with
          | some g => g
          | none => f2
        let f4 := match eatWords [strOf "limit"] f3 with
          | some g =>
            let ds := g.takeWhile Char.isDigit
            if ds ≠ [] then g.drop ds.length else f3
          | none => f3
        some (s0.take (s0.length - f4.length))

/-- Leftmost match of pattern 2 over the whole text. -/
def p2Search (t : Str) : Option Str :=
  match firstSufP (fun s0 =>
      (strOf "select").isPrefixOf (lowerS s0) && (p2AtSelect s0).isSome) t with
  | none => none
  | some s0 => p2AtSelect s0

/-- re.sub of `\s+` with a single space: collapse every whitespace run. -/
def wsNormalize : Nat → Str → Str
  | 0, s => s
  | _, [] => []
  | fuel + 1, c :: rest =>
    if isPyWS c then ' ' :: wsNormalize fuel (rest.dropWhile isPyWS)
    else c :: wsNormalize fuel rest

/-- clean_sql_query of query_service.py. -/
def clean_sql_query (s : Str) : Str :=
  if s = [] then []
  else
    let t1 := subMdOpen s.length s
    let t2 := subMdClose t1.length t1
    let t3 := subTicks t2.length t2
    let t4 := subSqlLabel t3.length true t3
    match p1Search t4 with
    | some g => wsNormalize g.length (stripS g)
    | none =>
      match p2Search t4 with
      | some g => wsNormalize g.length (stripS g)
      | none => stripS t4

example : clean_sql_query (strOf "SELECT name, ovr FROM players LIMIT 3;") =
    strOf "SELECT name, ovr FROM players LIMIT 3" := by decide

example : clean_sql_query (strOf "```sql\nSELECT name FROM players\n```") =
    strOf "SELECT name FROM players" := by decide

example : clean_sql_query (strOf "SQLQuery: SELECT name FROM players LIMIT 3") =
    strOf "SELECT name FROM players LIMIT 3" := by decide

example : clean_sql_query (strOf "No SQL here") = strOf "No SQL here" := by decide

/- ---------------- Generation result bundle ----------------
   The generation service's result dict carries a final-answer string and the
   ordered intermediate steps; each step is either free text or a structured
   step record exposing a `sql_cmd` field (the closed sum the spec's design
   notes prescribe for the unstructured external shape). -/

inductive Step where
  | text (s : Str)
  | record (sql_cmd : Str)
deriving DecidableEq

structure Bundle where
  result : Str
  intermediate_steps : List Step
deriving DecidableEq

def sqChar : Char := Char.ofNat 39

def bsChar : Char := Char.ofNat 92

def nlChar : Char := Char.ofNat 10

def lbChar : Char := Char.ofNat 123

def rbChar : Char := Char.ofNat 125

/-- Python `repr` escaping of one character for a chosen quote `q`. -/
def pyEscChar (q c : Char) : Str :=
  if c = bsChar then [bsChar, bsChar]
  else if c = nlChar then [bsChar, 'n']
  else if c = Char.ofNat 13 then [bsChar, 'r']
  else if c = Char.ofNat 9 then [bsChar, 't']
  else if c = q then [bsChar, q]
  else [c]

/-- Python `repr` of a string: single quotes unless the string contains a
    single quote and no double quote. -/
def pyReprStr (s : Str) : Str :=
  let q := if s.contains sqChar && !(s.contains '"') then '"' else sqChar
  [q] ++ s.foldr (fun c acc => pyEscChar q c ++ acc) [] ++ [q]

def pyReprStep : Step → Str
  | .text s => pyReprStr s
  | .record cmd =>
    [lbChar, sqChar] ++ strOf "sql_cmd" ++ [sqChar, ':', ' '] ++ pyReprStr cmd ++ [rbChar]

def joinSep (sep : Str) : List Str → Str
  | [] => []
  | [x] => x
  | x :: xs => x ++ sep ++ joinSep sep xs

/-- Python `str(result_dict)` for the modelled bundle (keys `result` and
    `intermediate_steps` in that order). -/
def pyReprBundle (b : Bundle) : Str :=
  [lbChar, sqChar] ++ strOf "result" ++ [sqChar, ':', ' '] ++ pyReprStr b.result ++
  [',', ' ', sqChar] ++ strOf "intermediate_steps" ++ [sqChar, ':', ' ', '['] ++
  joinSep (strOf ", ") (b.intermediate_steps.map pyReprStep) ++ [']', rbChar]

/- ---------------- extract_sql_query (query_service.py) ---------------- -/

/-- Candidate produced by one trace entry in the extraction loop: a free-text
    entry must contain both keywords and clean to a non-empty SELECT-prefixed
    statement; a structured record's `sql_cmd` field must merely clean to a
    non-empty string. -/
def stepYield : Step → Option Str
  | .text s =>
    if containsSub (strOf "SELECT") (upperS s) && containsSub (strOf "FROM") (upperS s) then
      let c := clean_sql_query s
      if c ≠ [] && (strOf "SELECT").isPrefixOf (upperS c) then some (rstripChar ';' c)
      else none
    else none
  | .record cmd =>
    let c := clean_sql_query cmd
    if c ≠ [] then some (rstripChar ';' c) else none

/-- The `for step in intermediate_steps` loop of extract_sql_query. -/
def scanSteps : List Step → Option Str
  | [] => none
  | st :: rest =>
    match stepYield st with
    | some q => some q
    | none => scanSteps rest

/-- Markdown pattern: backticks-sql + `\s*` + a lazy SELECT group up to the
    next triple backtick (IGNORECASE, DOTALL), at a suffix starting with the
    opener. -/
def mdAt (s0 : Str) : Option Str :=
  let a := (s0.drop 6).dropWhile isPyWS
  if (strOf "select").isPrefixOf (lowerS a) then
    match firstSufP (fun u => (strOf "```").isPrefixOf u) (a.drop 6) with
    | some u => some (a.take (a.length - u.length))
    | none => none
  else none

def mdSearch (t : Str) : Option Str :=
  match firstSufP (fun s0 =>
      (strOf "```sql").isPrefixOf (lowerS s0) && (mdAt s0).isSome) t with
  | none => none
  | some s0 => mdAt s0

/-- `SQLQuery:\s*(SELECT.*?)(?:SQLResult:|$)` (IGNORECASE, DOTALL): lazy group
    stops at the earliest `SQLResult:` or at `$` (end of string, or just
    before a final newline). -/
def sqlLabelAt (s0 : Str) : Option Str :=
  let a := (s0.drop 9).dropWhile isPyWS
  if (strOf "select").isPrefixOf (lowerS a) then
    match firstSufP (fun u =>
        (strOf "sqlresult:").isPrefixOf (lowerS u) || u = [] || u = [nlChar]) (a.drop 6) with
    | some u => some (a.take (a.length - u.length))
    | none => none
  else none

def sqlLabelSearch (t : Str) : Option Str :=
  match firstSufP (fun s0 =>
      (strOf "sqlquery:").isPrefixOf (lowerS s0) && (sqlLabelAt s0).isSome) t with
  | none => none
  | some s0 => sqlLabelAt s0

/-- Lookahead stop set of the last-resort pattern: `(?=\n|$|SQLResult:|...)`
    where the last alternative is a triple backtick. -/
def lrStop (u : Str) : Bool :=
  (match u with
   | ch :: _ => ch = nlChar
   | [] => true) ||
  (strOf "sqlresult:").isPrefixOf (lowerS u) ||
  (strOf "```").isPrefixOf u

/-- Last-resort pattern `(SELECT\s+.*?FROM\s+.*?)` with the `lrStop`
    lookahead (IGNORECASE, DOTALL), at a suffix starting with SELECT. -/
def lrAtSelect (s0 : Str) : Option Str :=
  let a := s0.drop 6
  match a with
  | [] => none
  | ch :: _ =>
    if !isPyWS ch then none
    else
      let b := a.dropWhile isPyWS
      match firstSufP (fun u =>
          (strOf "from").isPrefixOf (lowerS u) &&
          (match u.drop 4 with
           | d :: _ => isPyWS d
           | [] => false)) b with
      | none => none
      | some u =>
        let f := (u.drop 4).dropWhile isPyWS
        match firstSufP lrStop f with
        | none => none
        | some v => some (s0.take (s0.length - v.length))

def lrSearch (t : Str) : Option Str :=
  match firstSufP (fun s0 =>
      (strOf "select").isPrefixOf (lowerS s0) && (lrAtSelect s0).isSome) t with
  | none => none
  | some s0 => lrAtSelect s0

/-- The three fallback scans of extract_sql_query over the serialized bundle,
    in source order; a scan whose match cleans to the empty string falls
    through to the next one, exactly as in the source. -/
def serializedScan (rs : Str) : Str :=
  let c3 := match mdSearch rs with
    | some g => clean_sql_query g
    | none => []
  if c3 ≠ [] then rstripChar ';' c3
  else
    let c4 := match sqlLabelSearch rs with
      | some g => clean_sql_query g
      | none => []
    if c4 ≠ [] then rstripChar ';' c4
    else
      let c5 := match lrSearch rs with
        | some g => clean_sql_query g
        | none => []
      if c5 ≠ [] then rstripChar ';' c5 else []

/-- extract_sql_query of query_service.py. -/
def extract_sql_query (b : Bundle) : Str :=
  match scanSteps b.intermediate_steps with
  | some q => q
  | none => serializedScan (pyReprBundle b)

example : extract_sql_query ⟨[], [Step.text (strOf "SELECT name, ovr FROM players LIMIT 5;"),
    Step.text (strOf "SQLResult: [(\x27Messi\x27, 93)]")]⟩ =
    strOf "SELECT name, ovr FROM players LIMIT 5" := by decide

example : extract_sql_query ⟨[], [Step.record (strOf "SELECT name FROM players")]⟩ =
    strOf "SELECT name FROM players" := by decide

example : extract_sql_query ⟨strOf "Just text", [Step.text (strOf "No SQL here")]⟩ =
    [] := by decide

example : extract_sql_query ⟨[], []⟩ = [] := by decide

/- ---------------- Raw result values and ast.literal_eval ----------------
   Row data is modelled as integers and strings, the scalar shapes the data
   store serializer emits in this pipeline.  `parsePyRows` models
   ast.literal_eval restricted to list-of-tuples literals over these scalars
   (quoted strings without backslash escapes, optionally signed integers,
   optional trailing commas); any other literal text is a parse failure,
   which the source turns into the exception path. -/

inductive PyVal where
  | pint (n : Int)
  | pstr (s : Str)
deriving DecidableEq

abbrev Tup := List PyVal

def skipWS (s : Str) : Str := s.dropWhile isPyWS

def natOfDigits (ds : Str) : Nat := ds.foldl (fun a c => a * 10 + (c.toNat - 48)) 0

def parseIntLit (s : Str) : Option (Int × Str) :=
  match s with
  | '-' :: rest =>
    let ds := rest.takeWhile Char.isDigit
    if ds = [] then none else some (-(natOfDigits ds : Int), rest.drop ds.length)
  | _ =>
    let ds := s.takeWhile Char.isDigit
    if ds = [] then none else some ((natOfDigits ds : Int), s.drop ds.length)

/-- Scan to the closing quote; backslash escapes are outside the modelled
    literal subset and fail. -/
def takeUntilQuote (q : Char) : Str → Option (Str × Str)
  | [] => none
  | c :: rest =>
    if c = q then some ([], rest)
    else if c = bsChar then none
    else
      match takeUntilQuote q rest with
      | some (a, r) => some (c :: a, r)
      | none => none

def parseAtom (s : Str) : Option (PyVal × Str) :=
  match s with
  | c :: rest =>
    if c = sqChar || c = '"' then
      match takeUntilQuote c rest with
      | some (a, r) => some (.pstr a, r)
      | none => none
    else
      match parseIntLit s with
      | some (n, r) => some (.pint n, r)
      | none => none
  | [] => none

def parseTupRest (acc : List PyVal) : Nat → Str → Option (Tup × Str)
  | 0, _ => none
  | fuel + 1, s =>
    match skipWS s with
    | ')' :: r => some (acc.reverse, r)
    | ',' :: r =>
      match skipWS r with
      | ')' :: r2 => some (acc.reverse, r2)
      | r2 =>
        match parseAtom r2 with
        | some (v, r3) => parseTupRest (v :: acc) fuel r3
        | none => none
    | _ => none

def parseTuple (fuel : Nat) (s : Str) : Option (Tup × Str) :=
  match skipWS s with
  | '(' :: r =>
    match skipWS r with
    | ')' :: r2 => some ([], r2)
    | r2 =>
      match parseAtom r2 with
      | some (v, r3) => parseTupRest [v] fuel r3
      | none => none
  | _ => none

def parseRowsRest (acc : List Tup) : Nat → Str → Option (List Tup × Str)
  | 0, _ => none
  | fuel + 1, s =>
    match skipWS s with
    | ']' :: r => some (acc.reverse, r)
    | ',' :: r =>
      match skipWS r with
      | ']' :: r2 => some (acc.reverse, r2)
      | r2 =>
        match parseTuple fuel r2 with
        | some (t, r3) => parseRowsRest (t :: acc) fuel r3
        | none => none
    | _ => none

/-- ast.literal_eval of a list-of-tuples literal (modelled subset). -/
def parsePyRows (s : Str) : Option (List Tup) :=
  match skipWS s with
  | '[' :: r =>
    match skipWS r with
    | ']' :: r2 => if skipWS r2 = [] then some [] else none
    | r2 =>
      match parseTuple s.length r2 with
      | some (t1, r3) =>
        match parseRowsRest [t1] s.length r3 with
        | some (rows, rest) => if skipWS rest = [] then some rows else none
        | none => none
      | none => none
  | _ => none

example : parsePyRows (strOf "[(\x27Messi\x27, 93), (\x27Ronaldo\x27, 92)]") =
    some [[.pstr (strOf "Messi"), .pint 93], [.pstr (strOf "Ronaldo"), .pint 92]] := by decide

example : parsePyRows (strOf "[invalid list") = none := by decide

example : parsePyRows (strOf "not a valid list") = none := by decide

example : parsePyRows (strOf "[]") = some [] := by decide

/- ---------------- extract_raw_results (query_service.py) ---------------- -/

/-- Suffix following the rightmost occurrence start of `pat`, if any. -/
def afterLastAux (pat : Str) : Str → Option Str
  | [] => if pat.isPrefixOf [] then some [] else none
  | c :: rest =>
    match afterLastAux pat rest with
    | some t => some t
    | none =>
      if pat.isPrefixOf (c :: rest) then some ((c :: rest).drop pat.length) else none

/-- Python `s.split(pat)[-1]`: the text after the last occurrence of `pat`
    (the whole string when `pat` does not occur; the label used here has no
    self-overlap, so split segments and rightmost occurrence agree). -/
def afterLast (pat s : Str) : Str := (afterLastAux pat s).getD s

/-- The trace scan of extract_raw_results: a string step that is a bracketed
    literal, else one containing `SQLResult:`, yields its parsed rows;
    parse failures fall through, structured records are skipped. -/
def findStepResult : List Step → Option (List Tup)
  | [] => none
  | Step.text s :: rest =>
    let r1 : Option (List Tup) :=
      if (match s with
          | c :: _ => c = '['
          | [] => false) &&
         (match s.getLast? with
          | some c => c = ']'
          | none => false) then
        parsePyRows s
      else none
    (match r1 with
     | some rows => some rows
     | none =>
       if containsSub (strOf "SQLResult:") s then
         match parsePyRows (stripS (afterLast (strOf "SQLResult:") s)) with
         | some rows => some rows
         | none => findStepResult rest
       else findStepResult rest)
  | Step.record _ :: rest => findStepResult rest

/-- extract_raw_results of query_service.py.  `dbRun` models
    `get_db().run(sql)`: it returns the store's string serialization of the
    rows, or an execution error; an error, like a failed literal_eval of the
    output, is caught and yields the empty list. -/
def extract_raw_results (steps : List Step) (sql : Str)
    (dbRun : Str → Except Str Str) : List Tup :=
  match findStepResult steps with
  | some rows => rows
  | none =>
    if sql ≠ [] then
      match dbRun sql with
      | .ok out =>
        if out ≠ [] then
          match parsePyRows out with
          | some rows => rows
          | none => []
        else []
      | .error _ => []
    else []

/- ---------------- format_raw_rows (query_service.py) ---------------- -/

/-- Ordered string-keyed map with Python dict update semantics: an existing
    key keeps its position and takes the new value. -/
def dictInsert (d : List (Str × PyVal)) (k : Str) (v : PyVal) : List (Str × PyVal) :=
  if d.any (fun p => p.1 = k) then
    d.map (fun p => if p.1 = k then (k, v) else p)
  else d ++ [(k, v)]

abbrev Row := List (Str × PyVal)

/-- Python `{column_names[i]: value for i, value in enumerate(row) if i < len(column_names)}`. -/
def rowToDict (cols : List Str) (row : Tup) : Row :=
  row.enum.foldl (fun acc iv =>
    match cols.get? iv.1 with
    | some k => dictInsert acc k iv.2
    | none => acc) []

/-- format_raw_rows of query_service.py. -/
def format_raw_rows (raw : List Tup) (cols : List Str) : List Row :=
  if raw = [] || cols = [] then []
  else raw.map (rowToDict cols)

example : format_raw_rows [[.pstr (strOf "Messi"), .pint 93]] [strOf "name", strOf "ovr"] =
    [[(strOf "name", .pstr (strOf "Messi")), (strOf "ovr", .pint 93)]] := by decide

example : format_raw_rows [[.pstr (strOf "Messi"), .pint 93]] [strOf "name"] =
    [[(strOf "name", .pstr (strOf "Messi"))]] := by decide

/- ---------------- extract_column_names (query_service.py) ---------------- -/

def defaultCols : List Str :=
  [strOf "rank", strOf "name", strOf "ovr", strOf "position", strOf "nation", strOf "team"]

/-- Stop test for the lazy group of `SELECT\s+(.*?)\s+FROM`: a whitespace run
    of at least one character followed immediately by the FROM keyword. -/
def ecnStop (u : Str) : Bool :=
  match u with
  | d :: _ => isPyWS d && (strOf "from").isPrefixOf (lowerS (u.dropWhile isPyWS))
  | [] => false

/-- `re.search(r'SELECT\s+(.*?)\s+FROM', sql, IGNORECASE | DOTALL)`:
    greedy whitespace after SELECT, then the lazy group stops at the earliest
    whitespace run followed by FROM.  When no stop exists past the leading
    whitespace run, the greedy `\s+` backtracks: if the run has at least two
    characters and FROM follows it directly, the group matches empty with the
    run split between the two `\s+` parts (Python engine behaviour). -/
def ecnAtSelect (s0 : Str) : Option Str :=
  let a := s0.drop 6
  match a with
  | [] => none
  | ch :: _ =>
    if !isPyWS ch then none
    else
      let run := a.takeWhile isPyWS
      let b := a.drop run.length
      match firstSufP ecnStop b with
      | some u => some (b.take (b.length - u.length))
      | none =>
        if run.length ≥ 2 && (strOf "from").isPrefixOf (lowerS b) then some []
        else none

def ecnSearch (sql : Str) : Option Str :=
  match firstSufP (fun s0 =>
      (strOf "select").isPrefixOf (lowerS s0) && (ecnAtSelect s0).isSome) sql with
  | none => none
  | some s0 => ecnAtSelect s0

/-- Python `str.strip(chars)` for the quote set `"'`. -/
def stripQuotes (s : Str) : Str :=
  let isQ : Char → Bool := fun c => c = '"' || c = sqChar
  ((s.dropWhile isQ).reverse.dropWhile isQ).reverse

/-- Per-column cleanup of extract_column_names: strip whitespace and quotes,
    resolve an `as`-rename by splitting the (case-preserved) text on the
    lowercase separator, then drop a table qualification prefix. -/
def colClean (col : Str) : Str :=
  let c0 := stripQuotes (stripS col)
  let c1 :=
    if containsSub (strOf " as ") (lowerS c0) then
      stripS (afterLast (strOf " as ") c0)
    else c0
  if c1.contains '.' then afterLast (strOf ".") c1 else c1

/-- Python `str.split(sep)` for a single-character separator. -/
def splitOnChar (sep : Char) : Str → List Str
  | [] => [[]]
  | c :: rest =>
    let r := splitOnChar sep rest
    if c = sep then [] :: r
    else
      match r with
      | h :: t => (c :: h) :: t
      | [] => [[c]]

/-- extract_column_names of query_service.py. -/
def extract_column_names (sql : Str) : List Str :=
  if sql = [] then defaultCols
  else
    match ecnSearch sql with
    | none => defaultCols
    | some grp =>
      let select_part := stripS grp
      if stripS select_part = ['*'] then defaultCols
      else
        let columns := (splitOnChar ',' select_part).map colClean
        if columns = [] then defaultCols else columns

example : extract_column_names (strOf "SELECT name, ovr FROM players") =
    [strOf "name", strOf "ovr"] := by decide

example : extract_column_names (strOf "SELECT * FROM players") = defaultCols := by decide

example : extract_column_names (strOf "SELECT players.name, players.ovr FROM players") =
    [strOf "name", strOf "ovr"] := by decide

example : extract_column_names [] = defaultCols := by decide

example : extract_column_names (strOf "not a query") = defaultCols := by decide

/- ---------------- Prompt builder (query_service.py) ---------------- -/

def DATASET_DESCRIPTION : Str := strOf (
  "\n    The dataset provides comprehensive information on FC 25 players, focusing on their in-game ratings, attributes, and additional statistics." ++
  "\n    It is derived from the EA SPORTS Website using web scraping.\n" ++
  "\n    Here\x27s a breakdown of the main columns:\n" ++
  "\n    Rank: Player\x27s ranking based on overall rating (OVR) within the FC 25 group." ++
  "\n    Name: The full name of the player." ++
  "\n    Height: The player\x27s height." ++
  "\n    Weight: The player\x27s weight." ++
  "\n    Position: The primary position the player plays on the field." ++
  "\n    Alternative positions: Other positions the player can play effectively." ++
  "\n    Age: The player\x27s age." ++
  "\n    Nation: The country the player represents." ++
  "\n    League: The football league where the player currently plays." ++
  "\n    Team: The club team the player is part of." ++
  "\n    Play style: Specific gameplay traits.\n" ++
  "\n    Player Attributes: Acceleration, Sprint Speed, Positioning, Finishing, Shot Power, Long Shots, Volleys, Penalties." ++
  "\n    Passing and Vision: Vision, Crossing, Free Kick Accuracy, Short Passing, Long Passing, Curve." ++
  "\n    Dribbling and Agility: Dribbling, Agility, Balance, Reactions, Ball Control." ++
  "\n    Mentality and Defense: Composure, Interceptions, Heading Accuracy, Defensive Awareness, Standing Tackle, Sliding Tackle." ++
  "\n    Physical Attributes: Jumping, Stamina, Strength, Aggression." ++
  "\n    Technical Skills: Weak foot, Skill moves, Preferred foot." ++
  "\n    Goalkeeping Attributes: GK Diving, GK Handling, GK Kicking, GK Positioning, GK Reflexes.\n")

/-- build_schema_aware_prompt of query_service.py; the current model name
    (read in the source via get_current_model) is passed explicitly. -/
def build_schema_aware_prompt (currentModel question schema_text : Str) : Str :=
  let model_specific_instruction :=
    if containsSub (strOf "gpt-4") (lowerS currentModel) then
      strOf ("\nIMPORTANT: Return ONLY the SQL query without any markdown formatting, " ++
        "code blocks, or extra text. Do not wrap the query in ```sql or ``` tags.")
    else []
  question ++ strOf "\n\n" ++
  strOf "Here is the database schema:\n" ++ schema_text ++ strOf "\n\n" ++
  strOf "Here is a detailed description of each column:\n" ++ DATASET_DESCRIPTION ++ strOf "\n\n" ++
  strOf "Only write a valid SQL SELECT query using the tables and columns listed above." ++
  strOf ("Do not place a semicolon before the LIMIT clause. " ++
    "Only use a semicolon at the very end of the SQL statement.") ++
  model_specific_instruction

/- ---------------- handle_query (query_service.py) ---------------- -/

structure QueryResponse where
  sql_query : Str
  results : Str
  raw_rows : List Row
  status : Str
  error_message : Option Str
deriving DecidableEq

/-- The retry trigger of handle_query:
    `not sql_query or not sql_query.strip().upper().startswith("SELECT")`,
    negated (true when the candidate needs no retry). -/
def shapedOK (sql : Str) : Bool :=
  sql ≠ [] && (strOf "SELECT").isPrefixOf (upperS (stripS sql))

/-- The LIMIT-injection step of handle_query (lines 285-289): a substring
    test on the upper-cased statement guards appending " LIMIT 20". -/
def addLimit (sql : Str) : Str :=
  if containsSub (strOf "LIMIT") (upperS sql) then sql
  else stripS (rstripChar ';' sql) ++ strOf " LIMIT 20"

/-- Final validation, execution and materialization of handle_query
    (lines 263-316), given the result bundle in effect after the retry
    decision and the extracted candidate.  The elapsed-time and timestamp
    fields are wall-clock environment readings and are not modelled. -/
def finishQuery (result : Bundle) (sql_query : Str)
    (dbRun : Str → Except Str Str) : QueryResponse :=
  if sql_query = [] then
    { sql_query := []
      results := []
      raw_rows := []
      status := strOf "error"
      error_message := some (strOf "The AI could not generate a valid SQL query even after retry.") }
  else if !((strOf "SELECT").isPrefixOf (upperS (stripS sql_query))) then
    { sql_query := sql_query
      results := []
      raw_rows := []
      status := strOf "error"
      error_message := some (strOf "Only SELECT queries are allowed.") }
  else
    let sql2 := addLimit sql_query
    let raw_db_result := extract_raw_results result.intermediate_steps sql2 dbRun
    let column_names := extract_column_names sql2
    let formatted_rows := format_raw_rows raw_db_result column_names
    let formatted_rows := if formatted_rows.length > 20 then formatted_rows.take 20 else formatted_rows
    { sql_query := sql2
      results := result.result
      raw_rows := formatted_rows
      status := strOf "success"
      error_message := none }

/-- handle_query of query_service.py.  The generation service is the
    function `gen` from call index to result bundle; the returned list is
    the prompt of each generation call made, in order (the observable
    call log). -/
def handle_query (question currentModel schema_text : Str)
    (gen : Nat → Bundle) (dbRun : Str → Except Str Str) :
    QueryResponse × List Str :=
  let mapped_question := apply_alias_mapping question
  let prompt := build_schema_aware_prompt currentModel mapped_question schema_text
  let r1 := gen 0
  let sql1 := extract_sql_query r1
  let retried := !(shapedOK sql1)
  let result := if retried then gen 1 else r1
  let sql_query := if retried then extract_sql_query (gen 1) else sql1
  let calls := if retried then [prompt, prompt] else [prompt]
  (finishQuery result sql_query dbRun, calls)

/- ---------------- /query guard (main.py process_query) ---------------- -/

inductive GuardReject where
  | emptyQuestion
  | tooLong
  | suspiciousPattern
deriving DecidableEq

/-- suspicious_patterns of main.py process_query. -/
def suspicious_patterns : List Str :=
  [strOf "DROP TABLE", strOf "DELETE FROM", strOf "TRUNCATE",
   strOf "ALTER TABLE", strOf "DROP DATABASE"]

/-- The input-validation prefix of the /query endpoint (main.py lines
    147-175) followed by handle_query: empty/whitespace-only rejection,
    length cap, suspicious-pattern scan, then the pipeline.  The second
    component is the generation call log ([] when the guard rejects:
    no generation call occurs). -/
def process_query (question currentModel schema_text : Str)
    (gen : Nat → Bundle) (dbRun : Str → Except Str Str) :
    Except GuardReject QueryResponse × List Str :=
  if question = [] ∨ stripS question = [] then (.error .emptyQuestion, [])
  else if question.length > 500 then (.error .tooLong, [])
  else if suspicious_patterns.any (fun p => containsSub p (upperS question)) then
    (.error .suspiciousPattern, [])
  else
    let (resp, calls) := handle_query question currentModel schema_text gen dbRun
    (.ok resp, calls)

/- ---------------- Schema cache (schema_service.py) ---------------- -/

/-- A data-store catalog: tables in catalog order, each with its columns as
    (name, declared type) pairs. -/
abbrev Catalog := List (Str × List (Str × Str))

structure ColumnSchema where
  name : Str
  type : Str
deriving DecidableEq

structure TableSchema where
  name : Str
  columns : List ColumnSchema
deriving DecidableEq

structure SchemaResponse where
  tables : List TableSchema
deriving DecidableEq

/-- The flat text projection built by get_schema_text:
    "Table: X | Columns: a, b, c" per table, newline-joined. -/
def schemaTextOf (cat : Catalog) : Str :=
  joinSep [nlChar]
    (cat.map (fun t =>
      strOf "Table: " ++ t.1 ++ strOf " | Columns: " ++
      joinSep (strOf ", ") (t.2.map (fun c => c.1))))

/-- The structured projection built by get_schema_response. -/
def schemaResponseOf (cat : Catalog) : SchemaResponse :=
  ⟨cat.map (fun t => ⟨t.1, t.2.map (fun c => ⟨c.1, c.2⟩)⟩)⟩

/-- The module-level cache state of schema_service.py: only the text
    projection is stored (SCHEMA_CACHE_TEXT); there is no structured cache. -/
structure SchemaState where
  cacheText : Option Str
deriving DecidableEq

/-- get_schema_text of schema_service.py as a state transformer.  `liveCat`
    is the catalog contents at the moment of the call; the third component
    counts catalog reads performed by the call. -/
def get_schema_text (force_refresh : Bool) (liveCat : Catalog)
    (st : SchemaState) : Str × SchemaState × Nat :=
  match st.cacheText, force_refresh with
  | some t, false => (t, st, 0)
  | _, _ =>
    let t := schemaTextOf liveCat
    (t, ⟨some t⟩, 1)

/-- get_schema_response of schema_service.py: regardless of force_refresh
    (which only changes a log line), it performs a fresh catalog read and
    caches nothing. -/
def get_schema_response (_force_refresh : Bool) (liveCat : Catalog) :
    SchemaResponse × Nat :=
  (schemaResponseOf liveCat, 1)

/-- refresh_schema_cache of schema_service.py: refresh the text cache, then
    build the structured response; the two catalog reads happen one after
    the other, so `cat1` and `cat2` are the live catalog contents at the
    first and second read respectively. -/
def refresh_schema_cache (cat1 cat2 : Catalog) (st : SchemaState) :
    SchemaResponse × SchemaState × Nat :=
  let r1 := get_schema_text true cat1 st
  let r2 := get_schema_response true cat2
  (r2.1, r1.2.1, r1.2.2 + r2.2)

/- ---------------- Spec-side comparison definitions ---------------- -/

/-- Case-sensitive whole-word occurrence scan; `prev` is the character
    before the current position. -/
def wordOccurAux (w : Str) : Option Char → Str → Bool
  | _, [] => false
  | prev, c :: rest =>
    let s := c :: rest
    let okBefore := match prev with
      | none => true
      | some p => !isWordChar p
    let okAfter := match s.drop w.length with
      | [] => true
      | d :: _ => !isWordChar d
    if w.isPrefixOf s && okBefore && okAfter then true
    else wordOccurAux w (some c) rest

def containsWord (w s : Str) : Bool := wordOccurAux w none s

/-- Modelled from the spec: a candidate "contains a row-limit clause" when
    the LIMIT keyword occurs as a standalone word of the statement (checked
    on the upper-cased text), rather than as part of a longer identifier. -/
def hasRowLimitClause (sql : Str) : Bool := containsWord (strOf "LIMIT") (upperS sql)

/-- Modelled from the spec: the question text contains a data-mutation
    keyword of the create/alter/drop/delete/truncate class
    (case-insensitive). -/
def hasMutationKeyword (text : Str) : Bool :=
  [strOf "create", strOf "alter", strOf "drop",
   strOf "delete", strOf "truncate"].any (fun k => containsCI k text)

/-- Boolean success test for an Except value. -/
def isOkE {α β : Type} : Except α β → Bool
  | .ok _ => true
  | .error _ => false

instance {ε α : Type} [DecidableEq ε] [DecidableEq α] : DecidableEq (Except ε α) :=
  fun x y =>
  match x, y with
  | .ok a, .ok b =>
    if h : a = b then .isTrue (h ▸ rfl) else .isFalse (fun hc => h (Except.ok.inj hc))
  | .error a, .error b =>
    if h : a = b then .isTrue (h ▸ rfl) else .isFalse (fun hc => h (Except.error.inj hc))
  | .ok _, .error _ => .isFalse (fun hc => Except.noConfusion hc)
  | .error _, .ok _ => .isFalse (fun hc => Except.noConfusion hc)

/-- The candidate the pipeline validates after the retry decision: the first
    extraction if it has valid shape, else the re-extraction. -/
def finalCandidate (gen : Nat → Bundle) : Str :=
  let sql1 := extract_sql_query (gen 0)
  if shapedOK sql1 then sql1 else extract_sql_query (gen 1)

/- ---------------- Concrete fixtures for witnesses ---------------- -/

/-- Generation oracle producing a well-shaped statement and a trace-embedded
    result list. -/
def tracedGen : Nat → Bundle := fun _ =>
  ⟨strOf "Top players list",
   [Step.text (strOf "SELECT name, ovr FROM players LIMIT 3;"),
    Step.text (strOf "SQLResult: [(\x27Messi\x27, 93), (\x27Ronaldo\x27, 92)]")]⟩

/-- Generation oracle producing only a well-shaped statement (no trace
    results). -/
def plainGen : Nat → Bundle := fun _ =>
  ⟨strOf "answer", [Step.text (strOf "SELECT name FROM players LIMIT 3;")]⟩

/-- Generation oracle whose statement lacks a LIMIT clause while its trace
    carries a result list. -/
def noLimitGen : Nat → Bundle := fun _ =>
  ⟨[], [Step.text (strOf "SELECT name FROM players;"),
        Step.text (strOf "SQLResult: [(\x27Messi\x27, 93)]")]⟩

def okDb : Str → Except Str Str := fun _ => Except.ok (strOf "[(\x27Zidane\x27, 95)]")

def okDb2 : Str → Except Str Str := fun _ => Except.ok (strOf "[(\x27Pele\x27, 98)]")

def errDb : Str → Except Str Str := fun _ => Except.error (strOf "connection refused")

/-- Catalog contents at two different generations. -/
def catA : Catalog :=
  [(strOf "players", [(strOf "name", strOf "TEXT"), (strOf "ovr", strOf "INTEGER")])]

def catB : Catalog := [(strOf "teams", [(strOf "id", strOf "INTEGER")])]

/- ---------------- Helper lemmas ---------------- -/

theorem firstSufP_isSome_append (p : Str → Bool) (x y : Str)
    (h : (firstSufP p y).isSome = true) : (firstSufP p (x ++ y)).isSome = true := by
  induction x with
  | nil => simpa using h
  | cons c cs ih =>
    simp only [List.cons_append, firstSufP]
    split
    · rfl
    · exact ih

theorem containsSub_append_right (n x y : Str) (h : containsSub n y = true) :
    containsSub n (x ++ y) = true :=
  firstSufP_isSome_append _ x y h

/-- The LIMIT-injection step always leaves the LIMIT substring present. -/
theorem addLimit_has_limit (s : Str) :
    containsSub (strOf "LIMIT") (upperS (addLimit s)) = true := by
  unfold addLimit
  split
  · assumption
  · rw [upperS, List.map_append]
    exact containsSub_append_right _ _ _ (by decide)

theorem wordOccurAux_containsSub (w s : Str) :
    ∀ prev, wordOccurAux w prev s = true → containsSub w s = true := by
  induction s with
  | nil => intro prev h; simp [wordOccurAux] at h
  | cons c rest ih =>
    intro prev h
    simp only [wordOccurAux] at h
    split at h
    · rename_i hc
      simp only [Bool.and_eq_true] at hc
      simp only [containsSub, firstSufP, hc.1.1, if_pos]
      rfl
    · have := ih (some c) h
      simp only [containsSub, firstSufP]
      split
      · rfl
      · exact this

theorem containsWord_containsSub (w s : Str) (h : containsWord w s = true) :
    containsSub w s = true :=
  wordOccurAux_containsSub w s none h

/-- A step-trace scan that found nothing and a failing data store produce an
    empty raw-result list. -/
theorem extract_raw_results_error (steps : List Step) (sql msg : Str)
    (h : findStepResult steps = none) :
    extract_raw_results steps sql (fun _ => Except.error msg) = [] := by
  simp only [extract_raw_results, h]
  split <;> rfl

/-- When the trace scan succeeds, the raw results do not depend on the data
    store at all. -/
theorem extract_raw_results_db_indep (steps : List Step) (sql : Str)
    (dbRun dbRun' : Str → Except Str Str)
    (h : (findStepResult steps).isSome = true) :
    extract_raw_results steps sql dbRun = extract_raw_results steps sql dbRun' := by
  unfold extract_raw_results
  cases hf : findStepResult steps with
  | some rows => rfl
  | none => rw [hf] at h; simp at h

theorem finishQuery_db_indep (b : Bundle) (sql : Str)
    (dbRun dbRun' : Str → Except Str Str)
    (h : (findStepResult b.intermediate_steps).isSome = true) :
    finishQuery b sql dbRun = finishQuery b sql dbRun' := by
  unfold finishQuery
  split
  · rfl
  · split
    · rfl
    · simp only [extract_raw_results_db_indep b.intermediate_steps _ dbRun dbRun' h]

/-- The trace loop of extract_sql_query is the first-success fold of the
    per-entry candidate function over the entries in order. -/
theorem scanSteps_eq_findSome (steps : List Step) :
    scanSteps steps = steps.findSome? stepYield := by
  induction steps with
  | nil => rfl
  | cons st rest ih =>
    simp only [scanSteps, List.findSome?]
    cases stepYield st with
    | some q => rfl
    | none => exact ih

/-- A success-status outcome of the validation/execution stage carries the
    LIMIT substring in its final statement. -/
theorem finishQuery_success_limit (b : Bundle) (sql : Str)
    (dbRun : Str → Except Str Str)
    (h : (finishQuery b sql dbRun).status = strOf "success") :
    containsSub (strOf "LIMIT") (upperS (finishQuery b sql dbRun).sql_query) = true := by
  unfold finishQuery at h ⊢
  split at h
  · exact absurd (show strOf "error" = strOf "success" from h) (by decide)
  · split at h
    · exact absurd (show strOf "error" = strOf "success" from h) (by decide)
    · rename_i h1 h2
      rw [if_neg h1, if_neg h2]
      exact addLimit_has_limit sql

/-- If the trace scan found nothing and every data-store execution raises,
    the validation/execution stage still reports success with empty rows. -/
theorem finishQuery_exec_error (b : Bundle) (sql msg : Str)
    (hb : findStepResult b.intermediate_steps = none)
    (hs : shapedOK sql = true) :
    finishQuery b sql (fun _ => Except.error msg) =
      { sql_query := addLimit sql
        results := b.result
        raw_rows := []
        status := strOf "success"
        error_message := none } := by
  simp only [shapedOK, Bool.and_eq_true, decide_eq_true_eq] at hs
  unfold finishQuery
  rw [if_neg hs.1, if_neg (by simp [hs.2])]
  simp only [extract_raw_results_error _ _ _ hb]
  rfl

/- ---------------- Claim theorems ---------------- -/

/-- C4: in every pipeline invocation, if the first extraction yields an empty
    string or a candidate that does not case-insensitively begin with SELECT,
    the generation service is invoked exactly one additional time with the
    same prompt and the outcome is built from the re-extracted result; the
    generation call log never exceeds two entries, and both entries are the
    one built prompt. -/
theorem c4_retry_policy : ∀ (question currentModel schema_text : Str)
    (gen : Nat → Bundle) (dbRun : Str → Except Str Str),
    ((handle_query question currentModel schema_text gen dbRun).2 =
      (if shapedOK (extract_sql_query (gen 0)) then
        [build_schema_aware_prompt currentModel (apply_alias_mapping question) schema_text]
      else
        [build_schema_aware_prompt currentModel (apply_alias_mapping question) schema_text,
         build_schema_aware_prompt currentModel (apply_alias_mapping question) schema_text]))
    ∧ (handle_query question currentModel schema_text gen dbRun).2.length ≤ 2
    ∧ ((handle_query question currentModel schema_text gen dbRun).1 =
      finishQuery (if shapedOK (extract_sql_query (gen 0)) then gen 0 else gen 1)
        (if shapedOK (extract_sql_query (gen 0)) then extract_sql_query (gen 0)
         else extract_sql_query (gen 1)) dbRun) := by
  intro question currentModel schema_text gen dbRun
  refine ⟨?_, ?_, ?_⟩ <;>
    · simp only [handle_query]
      cases h : shapedOK (extract_sql_query (gen 0)) <;> simp [h]

/-- C7: columnsOf("SELECT name, ovr FROM players") is ["name","ovr"]; a bare
    star projection yields the fixed default column list, and so does any
    parse failure of the projection regex, rather than an error. -/
theorem c7_columns_of :
    (extract_column_names (strOf "SELECT name, ovr FROM players") =
      [strOf "name", strOf "ovr"])
    ∧ extract_column_names (strOf "SELECT * FROM players") = defaultCols
    ∧ (∀ sql, ecnSearch sql = none → extract_column_names sql = defaultCols)
    ∧ (∀ sql grp, ecnSearch sql = some grp → stripS grp = ['*'] →
        extract_column_names sql = defaultCols) := by
  refine ⟨by decide, by decide, ?_, ?_⟩
  · intro sql h
    unfold extract_column_names
    split
    · rfl
    · rw [h]
  · intro sql grp h hstar
    unfold extract_column_names
    split
    · rfl
    · rw [h]
      simp only [hstar]
      decide

/-- C7 witness: a parse failure of the projection regex at a concrete input
    yields the default columns. -/
theorem c7_columns_of_witness :
    extract_column_names (strOf "show me everything") = defaultCols :=
  c7_columns_of.2.2.1 _ (by decide)

/-- C9: every success outcome carries the LIMIT substring (case-insensitive)
    in its final query text, and because the presence test is a substring
    test, any candidate containing "limit" anywhere (even inside an
    identifier) is left unchanged by the limit-injection step. -/
theorem c9_success_limit_invariant :
    (∀ (question currentModel schema_text : Str) (gen : Nat → Bundle)
        (dbRun : Str → Except Str Str),
      (handle_query question currentModel schema_text gen dbRun).1.status = strOf "success" →
      containsSub (strOf "LIMIT")
        (upperS (handle_query question currentModel schema_text gen dbRun).1.sql_query) = true)
    ∧ (∀ cand, containsSub (strOf "LIMIT") (upperS cand) = true → addLimit cand = cand) := by
  constructor
  · intro question currentModel schema_text gen dbRun h
    exact finishQuery_success_limit _ _ _ h
  · intro cand h
    unfold addLimit
    rw [if_pos h]

/-- C9 witness: a concrete successful run whose final query contains LIMIT,
    and a concrete identifier-containing candidate left unchanged. -/
theorem c9_success_limit_invariant_witness :
    containsSub (strOf "LIMIT")
      (upperS (handle_query (strOf "best players") (strOf "llama") []
        tracedGen errDb).1.sql_query) = true
    ∧ addLimit (strOf "SELECT speed_limit FROM roads") =
        strOf "SELECT speed_limit FROM roads" :=
  ⟨c9_success_limit_invariant.1 _ _ _ _ _ (by decide),
   c9_success_limit_invariant.2 _ (by decide)⟩

/-- C10: the /query entry point rejects an empty or whitespace-only question,
    and a question longer than 500 characters, before the pipeline runs: the
    outcome is the corresponding rejection with an empty generation call log,
    independent of the generation service and the data store. -/
theorem c10_entry_guard : ∀ (question currentModel schema_text : Str)
    (gen : Nat → Bundle) (dbRun : Str → Except Str Str),
    stripS question = [] ∨ 500 < question.length →
    process_query question currentModel schema_text gen dbRun =
      (.error (if stripS question = [] then GuardReject.emptyQuestion
               else GuardReject.tooLong), []) := by
  intro question currentModel schema_text gen dbRun h
  by_cases hs : stripS question = []
  · unfold process_query
    rw [if_pos (Or.inr hs), if_pos hs]
  · have hq : ¬(question = []) := fun hnil => hs (by rw [hnil]; rfl)
    have hl : 500 < question.length := h.resolve_left hs
    unfold process_query
    rw [if_neg (fun hor => hor.elim hq hs), if_pos hl, if_neg hs]

/-- C10 witness: a whitespace-only question is rejected with no generation
    call. -/
theorem c10_entry_guard_witness :
    process_query (strOf "   ") (strOf "llama") [] tracedGen errDb =
      (.error GuardReject.emptyQuestion, []) :=
  (c10_entry_guard _ _ _ _ _ (Or.inl (by decide))).trans (by decide)

/-- C1 counterexample: a validated invocation whose bundle carries an
    SQLResult trace entry materializes the trace-embedded tuples, not the
    tuples direct execution of the validated statement would return — the
    claim that rows always come from direct execution, independently of the
    execution trace, is false. -/
theorem c1_trace_overrides_store :
    ((handle_query (strOf "best players") (strOf "llama") [] noLimitGen okDb).1.status =
      strOf "success")
    ∧ ((handle_query (strOf "best players") (strOf "llama") [] noLimitGen okDb).1.sql_query =
      strOf "SELECT name FROM players LIMIT 20")
    ∧ ((handle_query (strOf "best players") (strOf "llama") [] noLimitGen okDb).1.raw_rows =
      [[(strOf "name", PyVal.pstr (strOf "Messi"))]])
    ∧ (okDb (strOf "SELECT name FROM players LIMIT 20") =
      Except.ok (strOf "[(\x27Zidane\x27, 95)]"))
    ∧ (format_raw_rows ((parsePyRows (strOf "[(\x27Zidane\x27, 95)]")).getD [])
        (extract_column_names (strOf "SELECT name FROM players LIMIT 20")) =
      [[(strOf "name", PyVal.pstr (strOf "Zidane"))]])
    ∧ [[(strOf "name", PyVal.pstr (strOf "Messi"))]] ≠
        [[(strOf "name", PyVal.pstr (strOf "Zidane"))]] := by decide

/-- C1 amended: raw tuples come from the first trace entry that parses as a
    result list; direct execution of the validated statement is only a
    fallback when no trace entry parses.  Hence when every generation bundle
    carries a parseable trace result, the whole outcome is independent of
    the data store. -/
theorem c1_rows_prefer_trace : ∀ (question currentModel schema_text : Str)
    (gen : Nat → Bundle) (dbRun dbRun' : Str → Except Str Str),
    (findStepResult (gen 0).intermediate_steps).isSome = true →
    (findStepResult (gen 1).intermediate_steps).isSome = true →
    handle_query question currentModel schema_text gen dbRun =
      handle_query question currentModel schema_text gen dbRun' := by
  intro question currentModel schema_text gen dbRun dbRun' h0 h1
  unfold handle_query
  refine congrArg (fun r => (r, _)) ?_
  cases h : shapedOK (extract_sql_query (gen 0)) <;> simp [h]
  · exact finishQuery_db_indep _ _ _ _ h1
  · exact finishQuery_db_indep _ _ _ _ h0

/-- C1 amended witness: with trace-embedded results on both generation
    calls, two stores returning different data yield identical outcomes. -/
theorem c1_rows_prefer_trace_witness :
    handle_query (strOf "best players") (strOf "llama") [] tracedGen okDb =
      handle_query (strOf "best players") (strOf "llama") [] tracedGen okDb2 :=
  c1_rows_prefer_trace _ _ _ _ _ _ (by decide) (by decide)

/-- C2 counterexample: when direct execution of the validated statement
    raises, the invocation does not terminate with an error outcome — the
    error is swallowed and the outcome is a success with empty rows and no
    error message. -/
theorem c2_exec_error_swallowed :
    ((handle_query (strOf "q") (strOf "llama") [] plainGen errDb).1.status =
      strOf "success")
    ∧ (handle_query (strOf "q") (strOf "llama") [] plainGen errDb).1.raw_rows = []
    ∧ (handle_query (strOf "q") (strOf "llama") [] plainGen errDb).1.error_message = none
    ∧ ((handle_query (strOf "q") (strOf "llama") [] plainGen errDb).1.status ≠
      strOf "error") := by decide

/-- C2 amended: a data-store execution error is caught and logged away: if
    the trace carries no parseable results and the shaped candidate reaches
    execution, the outcome still has status success, with empty rows and no
    error message; the store is consulted at most once (no retry). -/
theorem c2_exec_error_empty_success : ∀ (question currentModel schema_text msg : Str)
    (gen : Nat → Bundle),
    findStepResult (gen 0).intermediate_steps = none →
    findStepResult (gen 1).intermediate_steps = none →
    shapedOK (finalCandidate gen) = true →
    ((handle_query question currentModel schema_text gen
        (fun _ => Except.error msg)).1.status = strOf "success")
    ∧ ((handle_query question currentModel schema_text gen
        (fun _ => Except.error msg)).1.raw_rows = [])
    ∧ ((handle_query question currentModel schema_text gen
        (fun _ => Except.error msg)).1.error_message = none) := by
  intro question currentModel schema_text msg gen h0 h1 hs
  unfold handle_query
  cases h : shapedOK (extract_sql_query (gen 0)) with
  | false =>
    simp only [finalCandidate] at hs
    rw [h] at hs
    simp only [Bool.false_eq_true, if_false] at hs
    simp [h]
    rw [finishQuery_exec_error _ _ msg h1 hs]
    exact ⟨rfl, rfl, rfl⟩
  | true =>
    simp [h]
    rw [finishQuery_exec_error _ _ msg h0 h]
    exact ⟨rfl, rfl, rfl⟩

/-- C2 amended witness: a concrete run with a failing store. -/
theorem c2_exec_error_empty_success_witness :
    ((handle_query (strOf "q") (strOf "gpt-4o") [] plainGen
        (fun _ => Except.error (strOf "boom"))).1.status = strOf "success")
    ∧ ((handle_query (strOf "q") (strOf "gpt-4o") [] plainGen
        (fun _ => Except.error (strOf "boom"))).1.raw_rows = [])
    ∧ ((handle_query (strOf "q") (strOf "gpt-4o") [] plainGen
        (fun _ => Except.error (strOf "boom"))).1.error_message = none) :=
  c2_exec_error_empty_success _ _ _ _ _ (by decide) (by decide) (by decide)

/-- C3 counterexample: "CREATE TABLE players" contains a create-class
    data-mutation keyword, yet the request is not rejected — the pipeline
    runs and the generation service is invoked once. -/
theorem c3_create_not_rejected :
    hasMutationKeyword (strOf "CREATE TABLE players") = true
    ∧ (isOkE (process_query (strOf "CREATE TABLE players") (strOf "llama") []
        plainGen okDb).1 = true)
    ∧ (process_query (strOf "CREATE TABLE players") (strOf "llama") []
        plainGen okDb).2.length = 1 := by decide

/-- C3 amended: the pre-generation guard rejects exactly the questions whose
    upper-cased text contains one of the five literal patterns DROP TABLE,
    DELETE FROM, TRUNCATE, ALTER TABLE, DROP DATABASE (not every
    create/alter/drop/delete/truncate-class keyword); for those questions
    the request is rejected before any generation call (the call log is
    empty). -/
theorem c3_pattern_guard : ∀ (question currentModel schema_text : Str)
    (gen : Nat → Bundle) (dbRun : Str → Except Str Str),
    stripS question ≠ [] → question.length ≤ 500 →
    suspicious_patterns.any (fun p => containsSub p (upperS question)) = true →
    process_query question currentModel schema_text gen dbRun =
      (.error GuardReject.suspiciousPattern, []) := by
  intro question currentModel schema_text gen dbRun h1 h2 h3
  unfold process_query
  rw [if_neg (fun hor => hor.elim (fun hq => h1 (by rw [hq]; rfl)) h1),
      if_neg (by omega), if_pos h3]

/-- C3 amended witness: the spec's own example "DROP TABLE players" is
    rejected with zero generation calls. -/
theorem c3_pattern_guard_witness :
    process_query (strOf "DROP TABLE players") (strOf "llama") [] plainGen okDb =
      (.error GuardReject.suspiciousPattern, []) :=
  c3_pattern_guard _ _ _ _ _ (by decide) (by decide) (by decide)

/-- C5 counterexample: a candidate with no row-limit clause whose text
    contains "limit" inside an identifier is returned unchanged — the
    default limit clause is not appended, refuting the claim that every
    clause-free candidate gets the clause appended. -/
theorem c5_identifier_suppresses_append :
    hasRowLimitClause (strOf "SELECT speed_limit FROM roads") = false
    ∧ (addLimit (strOf "SELECT speed_limit FROM roads") =
      strOf "SELECT speed_limit FROM roads") := by decide

/-- C5 amended: the presence test is a substring test: a candidate whose
    upper-cased text contains "LIMIT" anywhere (in particular every
    candidate with a real row-limit clause) is left unchanged, and a
    candidate without that substring is returned with trailing semicolons
    stripped and " LIMIT 20" appended. -/
theorem c5_substring_limit_guard : ∀ cand : Str,
    (hasRowLimitClause cand = true → addLimit cand = cand)
    ∧ (containsSub (strOf "LIMIT") (upperS cand) = false →
        addLimit cand = stripS (rstripChar ';' cand) ++ strOf " LIMIT 20") := by
  intro cand
  constructor
  · intro h
    unfold hasRowLimitClause at h
    unfold addLimit
    rw [if_pos (containsWord_containsSub _ _ h)]
  · intro h
    unfold addLimit
    rw [if_neg (by simp [h])]

/-- C5 amended witness: the spec's two examples behave as claimed. -/
theorem c5_substring_limit_guard_witness :
    (addLimit (strOf "SELECT * FROM players LIMIT 5") =
      strOf "SELECT * FROM players LIMIT 5")
    ∧ (addLimit (strOf "SELECT * FROM players") =
      strOf "SELECT * FROM players LIMIT 20") :=
  ⟨(c5_substring_limit_guard _).1 (by decide),
   (c5_substring_limit_guard _).2 (by decide)⟩

/-- C6 counterexample: refreshAll performs two catalog reads, not one, and
    when the catalog changes between them the text cache and the returned
    structured schema come from different generations; moreover, at a fixed
    later point the served text projection (cached) and structured
    projection (always freshly read) diverge. -/
theorem c6_projections_diverge :
    (refresh_schema_cache catA catB ⟨none⟩ =
      (schemaResponseOf catB, ⟨some (schemaTextOf catA)⟩, 2))
    ∧ schemaTextOf catA ≠ schemaTextOf catB
    ∧ (2 ≠ 1)
    ∧ ((get_schema_text false catB ⟨some (schemaTextOf catA)⟩).1 = schemaTextOf catA)
    ∧ ((get_schema_response false catB).1 = schemaResponseOf catB) := by decide

/-- C6 amended: only the text projection is cached; the structured
    projection is recomputed from a fresh catalog read on every request, and
    refreshAll performs two consecutive catalog reads — the text cache is
    rebuilt from the first read and the returned structured schema from the
    second, so the two projections agree exactly when the catalog did not
    change in between. -/
theorem c6_refresh_two_reads : ∀ (cat1 cat2 : Catalog) (st : SchemaState),
    refresh_schema_cache cat1 cat2 st =
      (schemaResponseOf cat2, ⟨some (schemaTextOf cat1)⟩, 2) := by
  intro cat1 cat2 st
  obtain ⟨ct⟩ := st
  cases ct <;> rfl

/-- C8 counterexample: a structured step record earlier in the trace wins
    over a later free-text entry that strategy 1 would accept — the trace is
    not processed "all free-text entries before any structured record". -/
theorem c8_record_beats_later_text :
    extract_sql_query ⟨[], [Step.record (strOf "SELECT a FROM t"),
        Step.text (strOf "SELECT b FROM t")]⟩ = strOf "SELECT a FROM t"
    ∧ stepYield (Step.text (strOf "SELECT b FROM t")) = some (strOf "SELECT b FROM t")
    ∧ strOf "SELECT a FROM t" ≠ strOf "SELECT b FROM t" := by decide

/-- C8 amended: the extractor makes a single ordered pass over the trace
    applying the free-text rule and the structured-record rule to each entry
    as encountered, returning the first entry's candidate; the serialized
    bundle scans (fenced block, then labeled prefix, then last resort) run
    only when no trace entry yields a candidate. -/
theorem c8_first_success_order : ∀ b : Bundle,
    extract_sql_query b =
      (b.intermediate_steps.findSome? stepYield).getD
        (serializedScan (pyReprBundle b)) := by
  intro b
  unfold extract_sql_query
  rw [scanSteps_eq_findSome]
  cases b.intermediate_steps.findSome? stepYield <;> rfl

end NlpSql
